import Mathlib

/-!
Verification of the type-resolution and accessor-synthesis engine of the
`gsettings-codegen` repository (`src/generators/mod.rs`).

The engine resolves, for each schema key, a type mapping (`Context`) or a
skip/unknown decision, via a priority-layered lookup (`KeyGenerators::get`),
and synthesizes an accessor bundle with generated documentation
(`KeyGenerator::docs`, `ToTokens for KeyGenerator`).

Rust `HashMap`/`HashSet` are embedded as association lists / membership
lists: `HashMap::insert` replaces any earlier binding of the same key,
which the association-list `insert` below reproduces; lookup and set
membership are keyed by decidable equality, matching the exact-equality
hashing of the source.  The `schema`, `generators/string` and
`generators/enumeration` modules of the repository are not part of the
provided source; the definitions taken from them are modelled from the
spec and marked as such.
-/

namespace Gsettings

/-- `schema::KeySignature` — sum type: a primitive GVariant type code
(`Type` in the source, `Typ` here since `Type` is reserved in Lean), or a
reference to a named enum. -/
inductive SchemaKeySignature where
  | Typ (s : String)
  | Enum (s : String)
deriving DecidableEq, Repr

/-- Modelled from the spec: `EnumDef` — `{ name, variants: ordered sequence
of (nick, numeric-value) }` (the `schema` module is not in the provided
source). -/
structure SchemaEnum where
  name : String
  variants : List (String × Int)
deriving DecidableEq, Repr

/-- Modelled from the spec: the numeric-range record of an entry —
`range: optional { min: optional literal-string, max: optional
literal-string }` (the `schema` module is not in the provided source). -/
structure KeyRange where
  min : Option String
  max : Option String
deriving DecidableEq, Repr

/-- Modelled from the spec: `Entry` — `{ name, signature, default,
summary, range }`; `key.signature()` of the source is the `signature`
field (the `schema` module is not in the provided source). -/
structure SchemaKey where
  name : String
  signature : SchemaKeySignature
  default : String
  summary : Option String
  range : Option KeyRange
deriving DecidableEq, Repr

/-- `Context` — the type mapping: argument type, return type, optional
auxiliary declarations.  The auxiliary token stream of the source is
represented by the enum definition it is generated from (the only
producer of auxiliaries, per the spec). -/
structure Context where
  arg_type : String
  ret_type : String
  auxiliary : Option SchemaEnum
deriving DecidableEq, Repr

/-- `Context::new_dissimilar` — distinct argument and return types, no
auxiliary. -/
def Context.new_dissimilar (arg_type ret_type : String) : Context :=
  { arg_type := arg_type, ret_type := ret_type, auxiliary := none }

/-- `Context::new` — identical argument and return type. -/
def Context.new (type_ : String) : Context :=
  Context.new_dissimilar type_ type_

/-- `Context::new_with_aux` — identical argument and return type plus an
auxiliary declaration fragment. -/
def Context.new_with_aux (type_ : String) (auxiliary : SchemaEnum) : Context :=
  { arg_type := type_, ret_type := type_, auxiliary := some auxiliary }

/-- `Override` — caller-supplied rule: a custom type mapping or a skip. -/
inductive Override where
  | Define (arg_type ret_type : String)
  | Skip
deriving DecidableEq, Repr

/-- Association list standing for a Rust `HashMap`. -/
abbrev AList (α β : Type) := List (α × β)

/-- `HashMap::insert`: binds `k` to `v`, replacing any earlier binding. -/
def AList.insert [DecidableEq α] (l : AList α β) (k : α) (v : β) : AList α β :=
  (k, v) :: l.filter (fun p => p.1 ≠ k)

/-- `HashMap::get`: the value bound to `k`, if any. -/
def AList.get [DecidableEq α] : AList α β → α → Option β
  | [], _ => none
  | p :: rest, k => if p.1 = k then some p.2 else AList.get rest k

/-- `HashSet::insert`, on a membership list. -/
def setInsert [DecidableEq α] (s : List α) (x : α) : List α :=
  if x ∈ s then s else x :: s

/-- `KeyGenerators` — the resolution registry: signature table (built-ins
merged with signature overrides), key-name override table, enum
definitions, and the two skip sets. -/
structure KeyGenerators where
  signatures : AList SchemaKeySignature Context
  key_names : AList String Context
  enums : AList String SchemaEnum
  signature_skips : List SchemaKeySignature
  key_name_skips : List String

/-- `KeyGenerators::insert_type` — bind a primitive type-code signature to
a context in the signature table. -/
def KeyGenerators.insert_type (this : KeyGenerators) (signature : String)
    (context : Context) : KeyGenerators :=
  { this with
    signatures := this.signatures.insert (SchemaKeySignature.Typ signature) context }

/-- `KeyGenerators::with_defaults` — empty registry pre-seeded with the
built-in signature mappings. -/
def KeyGenerators.with_defaults (enums : AList String SchemaEnum) : KeyGenerators :=
  let this : KeyGenerators :=
    { signatures := [], key_names := [], enums := enums,
      signature_skips := [], key_name_skips := [] }
  let this := this.insert_type "b" (Context.new "bool")
  let this := this.insert_type "i" (Context.new "i32")
  let this := this.insert_type "u" (Context.new "u32")
  let this := this.insert_type "x" (Context.new "i64")
  let this := this.insert_type "t" (Context.new "u64")
  let this := this.insert_type "d" (Context.new "f64")
  let this := this.insert_type "(ii)" (Context.new "(i32, i32)")
  let this := this.insert_type "as" (Context.new_dissimilar "&[&str]" "Vec<String>")
  this

/-- `KeyGenerators::add_signature_overrides` — merge per-signature
overrides: `Define` inserts into the signature table, `Skip` inserts into
the signature skip set.  The Rust argument is a `HashMap`, whose keys are
distinct; it is embedded as a list of pairs folded in order. -/
def KeyGenerators.add_signature_overrides (self : KeyGenerators) :
    List (SchemaKeySignature × Override) → KeyGenerators
  | [] => self
  | (signature, Override.Define arg_type ret_type) :: rest =>
      KeyGenerators.add_signature_overrides
        { self with
          signatures := self.signatures.insert signature
            (Context.new_dissimilar arg_type ret_type) } rest
  | (signature, Override.Skip) :: rest =>
      KeyGenerators.add_signature_overrides
        { self with signature_skips := setInsert self.signature_skips signature } rest

/-- `KeyGenerators::add_key_name_overrides` — merge per-key-name
overrides: `Define` inserts into the key-name table, `Skip` inserts into
the key-name skip set. -/
def KeyGenerators.add_key_name_overrides (self : KeyGenerators) :
    List (String × Override) → KeyGenerators
  | [] => self
  | (key_name, Override.Define arg_type ret_type) :: rest =>
      KeyGenerators.add_key_name_overrides
        { self with
          key_names := self.key_names.insert key_name
            (Context.new_dissimilar arg_type ret_type) } rest
  | (key_name, Override.Skip) :: rest =>
      KeyGenerators.add_key_name_overrides
        { self with key_name_skips := setInsert self.key_name_skips key_name } rest

/-- `KeyGenerator` — a key together with its resolved context. -/
structure KeyGenerator where
  key : SchemaKey
  context : Context
deriving DecidableEq, Repr

/-- `KeyGenerator::new`. -/
def KeyGenerator.new (key : SchemaKey) (context : Context) : KeyGenerator :=
  { key := key, context := context }

/-- Modelled from the spec: `string::key_generator` (the
`generators/string` module is not in the provided source) — "activates for
the single-character string signature; produces a mapping accepting a
borrowed string view and returning an owned string, with no auxiliary". -/
def string_key_generator (key : SchemaKey) : KeyGenerator :=
  KeyGenerator.new key (Context.new_dissimilar "&str" "String")

/-- Modelled from the spec: `enumeration::key_generator` (the
`generators/enumeration` module is not in the provided source) — "produces
a mapping whose argument/return type is the enum's name, and whose
auxiliary is the enum type declaration plus bidirectional conversion
logic". -/
def enumeration_key_generator (key : SchemaKey) (enum_ : SchemaEnum) : KeyGenerator :=
  KeyGenerator.new key (Context.new_with_aux enum_.name enum_)

/-- `GetResult` — resolution outcome: generate with this key generator,
skip, or unknown signature.  (`Some` of the source is `found` here to
avoid clashing with `Option.some`.) -/
inductive GetResult where
  | found (g : KeyGenerator)
  | skip
  | unknown
deriving DecidableEq, Repr

/-- The fatal errors of a generation pass: `abort_call_site!("expected an
enum definition for `{}`", enum_name)` in `KeyGenerators::get`.  The
source aborts the proc-macro pass; the embedding returns this in
`Except`. -/
inductive GenError where
  | missingEnum (enum_name : String)
deriving DecidableEq, Repr

/-- `KeyGenerators::get` — the priority-ordered resolution: key-name skip,
signature skip, key-name override, signature table, then signature
dispatch (`"s"` to the string generator, enum references to the enum
generator, anything else `Unknown`); a missing enum definition is a fatal
abort. -/
def KeyGenerators.get (self : KeyGenerators) (key : SchemaKey) :
    Except GenError GetResult :=
  let key_signature := key.signature
  if key.name ∈ self.key_name_skips then
    Except.ok GetResult.skip
  else if key_signature ∈ self.signature_skips then
    Except.ok GetResult.skip
  else match self.key_names.get key.name with
  | some context => Except.ok (GetResult.found (KeyGenerator.new key context))
  | none =>
    match self.signatures.get key_signature with
    | some context => Except.ok (GetResult.found (KeyGenerator.new key context))
    | none =>
      match key_signature with
      | SchemaKeySignature.Typ type_ =>
          if type_ = "s" then Except.ok (GetResult.found (string_key_generator key))
          else Except.ok GetResult.unknown
      | SchemaKeySignature.Enum enum_name =>
          match self.enums.get enum_name with
          | some e => Except.ok (GetResult.found (enumeration_key_generator key e))
          | none => Except.error (GenError.missingEnum enum_name)

/-- `KeyGenerator::docs` — the generated documentation string, built as
in the source: the summary line when the summary is present and
non-empty, an unconditional newline, the `default:` line, and — when the
range carries a non-empty min or max — a blank line followed by the
`min:`/`max:` parts joined by `"; "` when both occur. -/
def KeyGenerator.docs (self : KeyGenerator) : String :=
  let buf := ""
  let buf :=
    match self.key.summary with
    | some summary => if ¬summary.isEmpty then buf ++ summary ++ "\n" else buf
    | none => buf
  let buf := buf ++ "\n"
  let buf := buf ++ ("default: " ++ self.key.default)
  match self.key.range with
  | some range =>
    let min_is_some := (range.min.map (fun min => !min.isEmpty)).getD false
    let max_is_some := (range.max.map (fun max => !max.isEmpty)).getD false
    let buf := if min_is_some || max_is_some then (buf ++ "\n") ++ "\n" else buf
    let buf := if min_is_some then buf ++ ("min: " ++ range.min.getD "") else buf
    let buf := if min_is_some && max_is_some then (buf ++ ";") ++ " " else buf
    let buf := if max_is_some then buf ++ ("max: " ++ range.max.getD "") else buf
    buf
  | none => buf

/-- The synthesized accessor bundle of one key, as far as the claims
about `ToTokens for KeyGenerator` need it: the documentation attached to
every generated function, the key name the functions address, and the
validated setter-argument and getter-return type strings. -/
structure AccessorBundle where
  docs : String
  key_name : String
  set_type : String
  get_type : String
deriving DecidableEq, Repr

/-- The fatal synthesis error of `ToTokens for KeyGenerator`:
`panic!("Invalid type `{}`", ...)` when a type-mapping string fails to
parse under `syn::parse_str::<syn::Type>`. -/
inductive SynthError where
  | invalidType (s : String)
deriving DecidableEq, Repr

/-- `ToTokens for KeyGenerator` (`to_tokens`) — bundle synthesis.
`syn::parse_str::<syn::Type>` belongs to the external `syn` crate and is
abstracted as the parameter `parse_str` (`true` = the string parses as a
type expression).  As in the source, the return-type string is parsed
first, then the argument-type string; a failure is a fatal panic naming
the offending string, embedded as `Except.error`. -/
def KeyGenerator.to_tokens (parse_str : String → Bool) (self : KeyGenerator) :
    Except SynthError AccessorBundle :=
  let docs := self.docs
  let key_name := self.key.name
  if parse_str self.context.ret_type then
    if parse_str self.context.arg_type then
      Except.ok
        { docs := docs, key_name := key_name,
          set_type := self.context.arg_type, get_type := self.context.ret_type }
    else Except.error (SynthError.invalidType self.context.arg_type)
  else Except.error (SynthError.invalidType self.context.ret_type)

/-- Modelled from the spec: the encoding half of the generated enum
conversion logic (the `generators/enumeration` module is not in the
provided source) — a declared variant, identified by its position in the
declared order, maps to its associated numeric value as stored in the
underlying settings value. -/
def SchemaEnum.variantToRepr (e : SchemaEnum) (i : Fin e.variants.length) : Int :=
  (e.variants.get i).2

/-- Modelled from the spec: the decoding half of the generated enum
conversion logic (the `generators/enumeration` module is not in the
provided source) — a stored numeric value maps back to the first declared
variant carrying that value, and to nothing when no variant does. -/
def SchemaEnum.reprToVariant (e : SchemaEnum) (v : Int) : Option Nat :=
  go e.variants v
where
  /-- Position of the first variant whose numeric value is `v`. -/
  go : List (String × Int) → Int → Option Nat
    | [], _ => none
    | p :: rest, v => if p.2 = v then some 0 else (go rest v).map (· + 1)

/-- Whether an optional literal string is present, in the sense the docs
builder uses: supplied and non-empty. -/
def present : Option String → Bool
  | some s => !s.isEmpty
  | none => false

/-- Spec-side formula for the min/max block of the documentation: a blank
line and `min: <min>` and/or `max: <max>` joined by `"; "` when both are
present, and nothing at all when neither is. -/
def rangeDocsSpec : Option KeyRange → String
  | none => ""
  | some r =>
    if present r.min && present r.max then
      "\n\n" ++ ("min: " ++ (r.min.getD "" ++ ("; " ++ ("max: " ++ r.max.getD ""))))
    else if present r.min then
      "\n\n" ++ ("min: " ++ r.min.getD "")
    else if present r.max then
      "\n\n" ++ ("max: " ++ r.max.getD "")
    else ""

/-- Spec-side formula for the whole documentation string: the summary
followed by a blank line when it is non-empty, then the `default:` line
(the newline that ends the preceding blank line is always emitted), then
the min/max block exactly when min or max is present. -/
def docsSpec (key : SchemaKey) : String :=
  (match key.summary with
   | some s => if !s.isEmpty then s ++ "\n" else ""
   | none => "") ++
  ("\n" ++ (("default: " ++ key.default) ++ rangeDocsSpec key.range))

/-- One caller configuration step: a call to
`add_signature_overrides` or to `add_key_name_overrides`. -/
inductive OverrideCall where
  | bySignature (overrides : List (SchemaKeySignature × Override))
  | byKeyName (overrides : List (String × Override))

/-- Apply a sequence of override-merging calls to a registry, in order. -/
def KeyGenerators.applyCalls (kg : KeyGenerators) : List OverrideCall → KeyGenerators
  | [] => kg
  | OverrideCall.bySignature l :: rest =>
      KeyGenerators.applyCalls (kg.add_signature_overrides l) rest
  | OverrideCall.byKeyName l :: rest =>
      KeyGenerators.applyCalls (kg.add_key_name_overrides l) rest

/-- Registry for the C5 analysis: defaults, then a `Skip` supplied for the
signature `q`, then a `Define` supplied for the same signature in a later
call. -/
def kgSkipThenDefine : KeyGenerators :=
  ((KeyGenerators.with_defaults []).add_signature_overrides
      [(SchemaKeySignature.Typ "q", Override.Skip)]).add_signature_overrides
    [(SchemaKeySignature.Typ "q", Override.Define "MyArg" "MyRet")]

/-- Registry for the C5 analysis: defaults, then only the later `Define`
for the signature `q`. -/
def kgOnlyDefine : KeyGenerators :=
  (KeyGenerators.with_defaults []).add_signature_overrides
    [(SchemaKeySignature.Typ "q", Override.Define "MyArg" "MyRet")]

/-- A key whose signature is the `q` type code of the C5 analysis. -/
def keyQ : SchemaKey :=
  { name := "some-key", signature := SchemaKeySignature.Typ "q",
    default := "0", summary := none, range := none }

deriving instance DecidableEq for Except

/-- A concrete enum definition with two variants, used by the concrete
witnesses. -/
def enumColor : SchemaEnum := { name := "Color", variants := [("red", 0), ("blue", 1)] }

/-- A concrete registry exercising every resolution layer at once: a
signature override and a signature skip, a key-name override, and a key
name that receives a `Define` in one call and a `Skip` in a later call. -/
def kgDemo : KeyGenerators :=
  (((KeyGenerators.with_defaults [("Color", enumColor)]).add_signature_overrides
      [(SchemaKeySignature.Typ "x", Override.Define "MyArgX" "MyRetX"),
       (SchemaKeySignature.Typ "u", Override.Skip)]).add_key_name_overrides
    [("special", Override.Define "MyArgN" "MyRetN"),
     ("hidden", Override.Define "H1" "H2")]).add_key_name_overrides
    [("hidden", Override.Skip)]

/-- Key whose name is in the demo registry's name-skip set (and also has
a name-scoped `Define` mapping). -/
def keyHidden : SchemaKey :=
  { name := "hidden", signature := SchemaKeySignature.Typ "b",
    default := "true", summary := none, range := none }

/-- Key whose signature is in the demo registry's signature-skip set. -/
def keyUSkip : SchemaKey :=
  { name := "counter", signature := SchemaKeySignature.Typ "u",
    default := "0", summary := none, range := none }

/-- Key carrying a name-scoped `Define`, a signature-scoped `Define` and a
built-in mapping simultaneously. -/
def keySpecial : SchemaKey :=
  { name := "special", signature := SchemaKeySignature.Typ "x",
    default := "0", summary := none, range := none }

/-- Key whose signature carries a signature override shadowing the
built-in `x` mapping. -/
def keyX64 : SchemaKey :=
  { name := "window-width-64", signature := SchemaKeySignature.Typ "x",
    default := "0", summary := none, range := none }

/-- Key with the string signature and no override. -/
def keyTheme : SchemaKey :=
  { name := "theme", signature := SchemaKeySignature.Typ "s",
    default := "'light'", summary := none, range := none }

/-- Key with an enum-reference signature resolved by the demo registry. -/
def keyColor : SchemaKey :=
  { name := "accent", signature := SchemaKeySignature.Enum "Color",
    default := "'red'", summary := none, range := none }

/-- Key whose primitive signature matches nothing at all. -/
def keyOdd : SchemaKey :=
  { name := "odd", signature := SchemaKeySignature.Typ "(dd)",
    default := "(0,0)", summary := none, range := none }

/-- Key with an enum-reference signature naming no known enum. -/
def keyMissingEnum : SchemaKey :=
  { name := "bad", signature := SchemaKeySignature.Enum "Missing",
    default := "'x'", summary := none, range := none }

/-- Key with the built-in boolean signature. -/
def keyB : SchemaKey :=
  { name := "is-maximized", signature := SchemaKeySignature.Typ "b",
    default := "false", summary := none, range := none }

/-- A stand-in for `syn::parse_str::<syn::Type>` in the witnesses: every
string parses except the marker `!!bad!!`. -/
def parseDemo : String → Bool := fun s => s ≠ "!!bad!!"

/-- Key generator whose return-type string does not parse under
`parseDemo`. -/
def genBadRet : KeyGenerator :=
  KeyGenerator.new keyOdd (Context.new_dissimilar "i32" "!!bad!!")

/-- Key generator whose argument-type string does not parse under
`parseDemo`. -/
def genBadArg : KeyGenerator :=
  KeyGenerator.new keyOdd (Context.new_dissimilar "!!bad!!" "i32")

/-- Registry for the C10 analysis: defaults with the name `hidden` skipped
and the signature `u` skipped. -/
def kgC10 : KeyGenerators :=
  ((KeyGenerators.with_defaults []).add_key_name_overrides
      [("hidden", Override.Skip)]).add_signature_overrides
    [(SchemaKeySignature.Typ "u", Override.Skip)]

/-- Later calls for the C10 analysis: `Define` overrides supplied for the
already-skipped name and signature. -/
def callsC10 : List OverrideCall :=
  [OverrideCall.byKeyName [("hidden", Override.Define "A" "B")],
   OverrideCall.bySignature [(SchemaKeySignature.Typ "u", Override.Define "C" "D")]]

theorem nl_nl_append (x : String) : "\n" ++ ("\n" ++ x) = "\n\n" ++ x := by
  rw [← String.append_assoc]
  rfl

/-! ### Helper lemmas on the map and set embeddings -/

theorem AList.get_insert_self [DecidableEq α] (l : AList α β) (k : α) (v : β) :
    (l.insert k v).get k = some v := by
  simp [AList.insert, AList.get]

theorem AList.get_filter_out [DecidableEq α] (l : AList α β) (k k' : α)
    (h : k' ≠ k) :
    AList.get (l.filter (fun p => p.1 ≠ k)) k' = l.get k' := by
  induction l with
  | nil => rfl
  | cons p rest ih =>
    rw [List.filter_cons]
    by_cases hp : p.1 = k
    · have hd : decide (p.1 ≠ k) = false := by simp [hp]
      rw [hd]
      have hp' : ¬p.1 = k' := fun hq => h (by rw [← hq]; exact hp)
      simp only [Bool.false_eq_true, if_false, ih, AList.get, hp']
    · have hd : decide (p.1 ≠ k) = true := by simp [hp]
      rw [hd]
      simp only [if_true, AList.get, ih]

theorem AList.get_insert_ne [DecidableEq α] (l : AList α β) (k k' : α) (v : β)
    (h : k' ≠ k) : (l.insert k v).get k' = l.get k' := by
  unfold AList.insert
  have hk : ¬(k, v).1 = k' := Ne.symm h
  simp only [AList.get, hk, if_false]
  exact AList.get_filter_out l k k' h

theorem mem_setInsert [DecidableEq α] (s : List α) (x y : α) :
    y ∈ setInsert s x ↔ y = x ∨ y ∈ s := by
  unfold setInsert
  split
  · constructor
    · exact fun h => Or.inr h
    · rintro (rfl | h) <;> simp_all
  · simp

/-! ### Helper lemmas on `KeyGenerators.get`: one per branch -/

theorem get_of_name_skip (kg : KeyGenerators) (key : SchemaKey)
    (h : key.name ∈ kg.key_name_skips) :
    kg.get key = Except.ok GetResult.skip := by
  simp [KeyGenerators.get, h]

theorem get_of_sig_skip (kg : KeyGenerators) (key : SchemaKey)
    (h2 : key.signature ∈ kg.signature_skips) :
    kg.get key = Except.ok GetResult.skip := by
  unfold KeyGenerators.get
  split
  · rfl
  · simp [h2]

theorem get_of_key_name_found (kg : KeyGenerators) (key : SchemaKey) (c : Context)
    (h1 : key.name ∉ kg.key_name_skips)
    (h2 : key.signature ∉ kg.signature_skips)
    (h3 : kg.key_names.get key.name = some c) :
    kg.get key = Except.ok (GetResult.found (KeyGenerator.new key c)) := by
  simp [KeyGenerators.get, h1, h2, h3]

theorem get_of_sig_found (kg : KeyGenerators) (key : SchemaKey) (c : Context)
    (h1 : key.name ∉ kg.key_name_skips)
    (h2 : key.signature ∉ kg.signature_skips)
    (h3 : kg.key_names.get key.name = none)
    (h4 : kg.signatures.get key.signature = some c) :
    kg.get key = Except.ok (GetResult.found (KeyGenerator.new key c)) := by
  simp [KeyGenerators.get, h1, h2, h3, h4]

theorem get_string_dispatch (kg : KeyGenerators) (key : SchemaKey)
    (h1 : key.name ∉ kg.key_name_skips)
    (h2 : key.signature ∉ kg.signature_skips)
    (h3 : kg.key_names.get key.name = none)
    (h4 : kg.signatures.get key.signature = none)
    (h5 : key.signature = SchemaKeySignature.Typ "s") :
    kg.get key = Except.ok (GetResult.found (string_key_generator key)) := by
  have h2' := h2; have h4' := h4
  rw [h5] at h2' h4'
  simp [KeyGenerators.get, h1, h2', h3, h4', h5]

theorem get_unknown_dispatch (kg : KeyGenerators) (key : SchemaKey) (t : String)
    (h1 : key.name ∉ kg.key_name_skips)
    (h2 : key.signature ∉ kg.signature_skips)
    (h3 : kg.key_names.get key.name = none)
    (h4 : kg.signatures.get key.signature = none)
    (h5 : key.signature = SchemaKeySignature.Typ t) (h6 : t ≠ "s") :
    kg.get key = Except.ok GetResult.unknown := by
  have h2' := h2; have h4' := h4
  rw [h5] at h2' h4'
  simp [KeyGenerators.get, h1, h2', h3, h4', h5, h6]

theorem get_enum_dispatch (kg : KeyGenerators) (key : SchemaKey)
    (n : String) (e : SchemaEnum)
    (h1 : key.name ∉ kg.key_name_skips)
    (h2 : key.signature ∉ kg.signature_skips)
    (h3 : kg.key_names.get key.name = none)
    (h4 : kg.signatures.get key.signature = none)
    (h5 : key.signature = SchemaKeySignature.Enum n)
    (h6 : kg.enums.get n = some e) :
    kg.get key = Except.ok (GetResult.found (enumeration_key_generator key e)) := by
  have h2' := h2; have h4' := h4
  rw [h5] at h2' h4'
  simp [KeyGenerators.get, h1, h2', h3, h4', h5, h6]

theorem get_enum_missing (kg : KeyGenerators) (key : SchemaKey) (n : String)
    (h1 : key.name ∉ kg.key_name_skips)
    (h2 : key.signature ∉ kg.signature_skips)
    (h3 : kg.key_names.get key.name = none)
    (h4 : kg.signatures.get key.signature = none)
    (h5 : key.signature = SchemaKeySignature.Enum n)
    (h6 : kg.enums.get n = none) :
    kg.get key = Except.error (GenError.missingEnum n) := by
  have h2' := h2; have h4' := h4
  rw [h5] at h2' h4'
  simp [KeyGenerators.get, h1, h2', h3, h4', h5, h6]

/-! ### Claim theorems -/

/-- C2: for every key and resolved mapping, the generated documentation
string is the key's summary followed by a blank line when the summary is
present and non-empty, then the `default: <default>` line (always preceded
by the newline ending that blank line), then — exactly when at least one
of the range's min/max is present (supplied and non-empty) — a blank line
followed by `min: <min>` and/or `max: <max>`, joined by `"; "` on one line
when both are present.  The documentation does not depend on the resolved
context. -/
theorem C2_docs_structure (g : KeyGenerator) : g.docs = docsSpec g.key := by
  obtain ⟨⟨name, sig, default, summary, range⟩, ctx⟩ := g
  unfold KeyGenerator.docs docsSpec rangeDocsSpec present
  cases summary with
  | none =>
    cases range with
    | none => simp [String.empty_append]
    | some r =>
      obtain ⟨mn, mx⟩ := r
      cases mn with
      | none =>
        cases mx with
        | none => simp [String.empty_append]
        | some mx =>
          by_cases hxe : mx.isEmpty <;>
            simp [hxe, String.empty_append, String.append_assoc, nl_nl_append]
      | some mn =>
        cases mx with
        | none =>
          by_cases hme : mn.isEmpty <;>
            simp [hme, String.empty_append, String.append_assoc, nl_nl_append]
        | some mx =>
          by_cases hme : mn.isEmpty <;> by_cases hxe : mx.isEmpty <;>
            simp [hme, hxe, String.empty_append, String.append_assoc, nl_nl_append]
  | some s =>
    by_cases hse : s.isEmpty <;>
    · cases range with
      | none => simp [hse, String.empty_append, String.append_assoc, nl_nl_append]
      | some r =>
        obtain ⟨mn, mx⟩ := r
        cases mn with
        | none =>
          cases mx with
          | none => simp [hse, String.empty_append, String.append_assoc, nl_nl_append]
          | some mx =>
            by_cases hxe : mx.isEmpty <;>
              simp [hse, hxe, String.empty_append, String.append_assoc, nl_nl_append]
        | some mn =>
          cases mx with
          | none =>
            by_cases hme : mn.isEmpty <;>
              simp [hse, hme, String.empty_append, String.append_assoc, nl_nl_append]
          | some mx =>
            by_cases hme : mn.isEmpty <;> by_cases hxe : mx.isEmpty <;>
              simp [hse, hme, hxe, String.empty_append, String.append_assoc, nl_nl_append]

/-- C8: for every key whose summary is absent or empty, whose default is
the literal `"false"`, and which has no range, the generated documentation
is exactly `"\ndefault: false"`. -/
theorem C8_docs_minimal (g : KeyGenerator)
    (hs : g.key.summary = none ∨ g.key.summary = some "")
    (hd : g.key.default = "false") (hr : g.key.range = none) :
    g.docs = "\ndefault: false" := by
  obtain ⟨⟨name, sig, default, summary, range⟩, ctx⟩ := g
  simp only at hs hd hr
  subst hd; subst hr
  rcases hs with hs | hs <;> subst hs <;> rfl

/-- A concrete key exercising C8: empty-summary variant and
absent-summary variant. -/
theorem C8_docs_minimal_witness :
    (KeyGenerator.new
      { name := "is-maximized", signature := SchemaKeySignature.Typ "b",
        default := "false", summary := none, range := none }
      (Context.new "bool")).docs = "\ndefault: false" :=
  C8_docs_minimal _ (Or.inl rfl) rfl rfl

/-- C1: `KeyGenerators::get` resolves with first match winning, in the
order: key-name skip set (`Skip`, regardless of any mapping), signature
skip set (`Skip`, regardless of any mapping), key-name override table,
signature table (built-ins merged with signature overrides), signature
dispatch (`Type "s"` to the String generator, `Enum` to the Enum
generator), otherwise `Unknown`.  In particular a name in a skip set
yields `Skip` even when `Define` mappings exist, and a name-scoped
mapping wins over a signature-scoped mapping, which wins over a built-in
(the built-ins live in the same signature table and are replaced by
signature overrides). -/
theorem C1_resolution_order (kg : KeyGenerators) (key : SchemaKey) :
    (key.name ∈ kg.key_name_skips →
      kg.get key = Except.ok GetResult.skip)
  ∧ (key.signature ∈ kg.signature_skips →
      kg.get key = Except.ok GetResult.skip)
  ∧ (∀ c : Context, key.name ∉ kg.key_name_skips →
      key.signature ∉ kg.signature_skips →
      kg.key_names.get key.name = some c →
      kg.get key = Except.ok (GetResult.found (KeyGenerator.new key c)))
  ∧ (∀ c : Context, key.name ∉ kg.key_name_skips →
      key.signature ∉ kg.signature_skips →
      kg.key_names.get key.name = none →
      kg.signatures.get key.signature = some c →
      kg.get key = Except.ok (GetResult.found (KeyGenerator.new key c)))
  ∧ (key.name ∉ kg.key_name_skips →
      key.signature ∉ kg.signature_skips →
      kg.key_names.get key.name = none →
      kg.signatures.get key.signature = none →
      key.signature = SchemaKeySignature.Typ "s" →
      kg.get key = Except.ok (GetResult.found (string_key_generator key)))
  ∧ (∀ (n : String) (e : SchemaEnum), key.name ∉ kg.key_name_skips →
      key.signature ∉ kg.signature_skips →
      kg.key_names.get key.name = none →
      kg.signatures.get key.signature = none →
      key.signature = SchemaKeySignature.Enum n →
      kg.enums.get n = some e →
      kg.get key = Except.ok (GetResult.found (enumeration_key_generator key e)))
  ∧ (∀ t : String, key.name ∉ kg.key_name_skips →
      key.signature ∉ kg.signature_skips →
      kg.key_names.get key.name = none →
      kg.signatures.get key.signature = none →
      key.signature = SchemaKeySignature.Typ t → t ≠ "s" →
      kg.get key = Except.ok GetResult.unknown) :=
  ⟨get_of_name_skip kg key,
   get_of_sig_skip kg key,
   fun c => get_of_key_name_found kg key c,
   fun c => get_of_sig_found kg key c,
   get_string_dispatch kg key,
   fun n e => get_enum_dispatch kg key n e,
   fun t => get_unknown_dispatch kg key t⟩

/-- Concrete run of every branch of the C1 resolution order on the demo
registry: a skipped name carrying a `Define` mapping still skips, a
skipped signature skips, the name-scoped mapping beats the
signature-scoped mapping which beats the built-in, the string and enum
generators fire, and an unmatched signature is `Unknown`. -/
theorem C1_resolution_order_witness :
    kgDemo.get keyHidden = Except.ok GetResult.skip
  ∧ kgDemo.get keyUSkip = Except.ok GetResult.skip
  ∧ kgDemo.get keySpecial =
      Except.ok (GetResult.found
        (KeyGenerator.new keySpecial (Context.new_dissimilar "MyArgN" "MyRetN")))
  ∧ kgDemo.get keyX64 =
      Except.ok (GetResult.found
        (KeyGenerator.new keyX64 (Context.new_dissimilar "MyArgX" "MyRetX")))
  ∧ kgDemo.get keyTheme = Except.ok (GetResult.found (string_key_generator keyTheme))
  ∧ kgDemo.get keyColor =
      Except.ok (GetResult.found (enumeration_key_generator keyColor enumColor))
  ∧ kgDemo.get keyOdd = Except.ok GetResult.unknown :=
  ⟨(C1_resolution_order kgDemo keyHidden).1 (by decide),
   (C1_resolution_order kgDemo keyUSkip).2.1 (by decide),
   (C1_resolution_order kgDemo keySpecial).2.2.1
     (Context.new_dissimilar "MyArgN" "MyRetN") (by decide) (by decide) (by decide),
   (C1_resolution_order kgDemo keyX64).2.2.2.1
     (Context.new_dissimilar "MyArgX" "MyRetX") (by decide) (by decide) (by decide) (by decide),
   (C1_resolution_order kgDemo keyTheme).2.2.2.2.1
     (by decide) (by decide) (by decide) (by decide) (by decide),
   (C1_resolution_order kgDemo keyColor).2.2.2.2.2.1 "Color" enumColor
     (by decide) (by decide) (by decide) (by decide) (by decide) (by decide),
   (C1_resolution_order kgDemo keyOdd).2.2.2.2.2.2 "(dd)"
     (by decide) (by decide) (by decide) (by decide) (by decide) (by decide)⟩

/-- C3: a key whose signature references an enum absent from the
registry's enum map — and which reaches the enum dispatch because it is
neither skipped nor covered by a name- or signature-scoped mapping — is a
fatal error naming the missing enum; and for an enum-reference signature,
`get` never returns the `Unknown` outcome. -/
theorem C3_missing_enum_fatal (kg : KeyGenerators) (key : SchemaKey) (n : String) :
    (key.name ∉ kg.key_name_skips →
      key.signature ∉ kg.signature_skips →
      kg.key_names.get key.name = none →
      kg.signatures.get key.signature = none →
      key.signature = SchemaKeySignature.Enum n →
      kg.enums.get n = none →
      kg.get key = Except.error (GenError.missingEnum n))
  ∧ (key.signature = SchemaKeySignature.Enum n →
      kg.get key ≠ Except.ok GetResult.unknown) := by
  constructor
  · exact get_enum_missing kg key n
  · intro h5 hbad
    by_cases hA : key.name ∈ kg.key_name_skips
    · rw [get_of_name_skip kg key hA] at hbad
      simp at hbad
    · by_cases hB : key.signature ∈ kg.signature_skips
      · rw [get_of_sig_skip kg key hB] at hbad
        simp at hbad
      · cases hC : kg.key_names.get key.name with
        | some c =>
          rw [get_of_key_name_found kg key c hA hB hC] at hbad
          simp at hbad
        | none =>
          cases hD : kg.signatures.get key.signature with
          | some c =>
            rw [get_of_sig_found kg key c hA hB hC hD] at hbad
            simp at hbad
          | none =>
            cases hE : kg.enums.get n with
            | some e =>
              rw [get_enum_dispatch kg key n e hA hB hC hD h5 hE] at hbad
              simp at hbad
            | none =>
              rw [get_enum_missing kg key n hA hB hC hD h5 hE] at hbad
              simp at hbad

/-- Concrete run of C3: with no enum definitions, resolving a key whose
signature references the enum `Missing` aborts naming it, and a resolved
enum key is never `Unknown`. -/
theorem C3_missing_enum_fatal_witness :
    (KeyGenerators.with_defaults []).get keyMissingEnum =
      Except.error (GenError.missingEnum "Missing")
  ∧ kgDemo.get keyColor ≠ Except.ok GetResult.unknown :=
  ⟨(C3_missing_enum_fatal (KeyGenerators.with_defaults []) keyMissingEnum "Missing").1
     (by decide) (by decide) (by decide) (by decide) (by decide) (by decide),
   (C3_missing_enum_fatal kgDemo keyColor "Color").2 (by decide)⟩

/-- C6: a key whose primitive `Type` signature matches no entry of the
signature table, no key-name override, no skip entry, and is not the
string signature `s`, resolves to the `Unknown` outcome as an ordinary
`Except.ok` value — a caller-visible diagnostic, not the `Except.error`
abort of the pass. -/
theorem C6_unknown_is_value (kg : KeyGenerators) (key : SchemaKey) (t : String)
    (h1 : key.name ∉ kg.key_name_skips) (h2 : key.signature ∉ kg.signature_skips)
    (h3 : kg.key_names.get key.name = none)
    (h4 : kg.signatures.get key.signature = none)
    (h5 : key.signature = SchemaKeySignature.Typ t) (h6 : t ≠ "s") :
    kg.get key = Except.ok GetResult.unknown :=
  get_unknown_dispatch kg key t h1 h2 h3 h4 h5 h6

/-- Concrete run of C6: the signature `(dd)` matches nothing in the
default registry and resolves to `Unknown` as a value. -/
theorem C6_unknown_is_value_witness :
    (KeyGenerators.with_defaults []).get keyOdd = Except.ok GetResult.unknown :=
  C6_unknown_is_value (KeyGenerators.with_defaults []) keyOdd "(dd)"
    (by decide) (by decide) (by decide) (by decide) (by decide) (by decide)

/-- C4: bundle synthesis fails fatally, naming the offending string, when
a resolved mapping's return-type or argument-type string does not parse as
a type expression (the return type is checked first, as in the source);
and no such validation happens at insertion — `add_signature_overrides`
and `add_key_name_overrides` record a `Define` mapping for any strings
whatsoever, without error. -/
theorem C4_invalid_type_synthesis (parse_str : String → Bool) (g : KeyGenerator)
    (kg : KeyGenerators) (sig : SchemaKeySignature) (nm a r : String) :
    (parse_str g.context.ret_type = false →
      g.to_tokens parse_str = Except.error (SynthError.invalidType g.context.ret_type))
  ∧ (parse_str g.context.ret_type = true → parse_str g.context.arg_type = false →
      g.to_tokens parse_str = Except.error (SynthError.invalidType g.context.arg_type))
  ∧ ((kg.add_signature_overrides [(sig, Override.Define a r)]).signatures.get sig
      = some (Context.new_dissimilar a r))
  ∧ ((kg.add_key_name_overrides [(nm, Override.Define a r)]).key_names.get nm
      = some (Context.new_dissimilar a r)) := by
  refine ⟨?_, ?_, ?_, ?_⟩
  · intro h
    simp [KeyGenerator.to_tokens, h]
  · intro h1 h2
    simp [KeyGenerator.to_tokens, h1, h2]
  · exact AList.get_insert_self kg.signatures sig (Context.new_dissimilar a r)
  · exact AList.get_insert_self kg.key_names nm (Context.new_dissimilar a r)

/-- Concrete run of C4: synthesis rejects the unparsable string `!!bad!!`
in return then argument position, while insertion of the arbitrary
strings `@@`/`##` is accepted and recorded. -/
theorem C4_invalid_type_synthesis_witness :
    genBadRet.to_tokens parseDemo = Except.error (SynthError.invalidType "!!bad!!")
  ∧ genBadArg.to_tokens parseDemo = Except.error (SynthError.invalidType "!!bad!!")
  ∧ ((KeyGenerators.with_defaults []).add_signature_overrides
      [(SchemaKeySignature.Typ "z", Override.Define "@@" "##")]).signatures.get
      (SchemaKeySignature.Typ "z") = some (Context.new_dissimilar "@@" "##")
  ∧ ((KeyGenerators.with_defaults []).add_key_name_overrides
      [("weird", Override.Define "@@" "##")]).key_names.get "weird"
      = some (Context.new_dissimilar "@@" "##") :=
  ⟨(C4_invalid_type_synthesis parseDemo genBadRet (KeyGenerators.with_defaults [])
      (SchemaKeySignature.Typ "z") "weird" "@@" "##").1 (by decide),
   (C4_invalid_type_synthesis parseDemo genBadArg (KeyGenerators.with_defaults [])
      (SchemaKeySignature.Typ "z") "weird" "@@" "##").2.1 (by decide) (by decide),
   (C4_invalid_type_synthesis parseDemo genBadRet (KeyGenerators.with_defaults [])
      (SchemaKeySignature.Typ "z") "weird" "@@" "##").2.2.1,
   (C4_invalid_type_synthesis parseDemo genBadRet (KeyGenerators.with_defaults [])
      (SchemaKeySignature.Typ "z") "weird" "@@" "##").2.2.2⟩

/-- C7: `with_defaults` pre-seeds exactly the eight built-in signature
mappings (`b`/bool, `i`/i32, `u`/u32, `x`/i64, `t`/u64, `d`/f64,
`(ii)`/(i32, i32) with identical argument and return type, and `as` with
argument `&[&str]` and return `Vec<String>`), nothing else, with empty
override tables and skip sets; a key with one of these signatures then
resolves to exactly that mapping (whose auxiliary is `none` by
construction of `Context.new`/`new_dissimilar`). -/
theorem C7_with_defaults_builtins (enums : AList String SchemaEnum) :
    ((KeyGenerators.with_defaults enums).signatures.get (SchemaKeySignature.Typ "b")
        = some (Context.new "bool")
      ∧ (KeyGenerators.with_defaults enums).signatures.get (SchemaKeySignature.Typ "i")
        = some (Context.new "i32")
      ∧ (KeyGenerators.with_defaults enums).signatures.get (SchemaKeySignature.Typ "u")
        = some (Context.new "u32")
      ∧ (KeyGenerators.with_defaults enums).signatures.get (SchemaKeySignature.Typ "x")
        = some (Context.new "i64")
      ∧ (KeyGenerators.with_defaults enums).signatures.get (SchemaKeySignature.Typ "t")
        = some (Context.new "u64")
      ∧ (KeyGenerators.with_defaults enums).signatures.get (SchemaKeySignature.Typ "d")
        = some (Context.new "f64")
      ∧ (KeyGenerators.with_defaults enums).signatures.get (SchemaKeySignature.Typ "(ii)")
        = some (Context.new "(i32, i32)")
      ∧ (KeyGenerators.with_defaults enums).signatures.get (SchemaKeySignature.Typ "as")
        = some (Context.new_dissimilar "&[&str]" "Vec<String>"))
  ∧ (∀ sig : SchemaKeySignature,
      sig ∉ [SchemaKeySignature.Typ "b", SchemaKeySignature.Typ "i",
             SchemaKeySignature.Typ "u", SchemaKeySignature.Typ "x",
             SchemaKeySignature.Typ "t", SchemaKeySignature.Typ "d",
             SchemaKeySignature.Typ "(ii)", SchemaKeySignature.Typ "as"] →
      (KeyGenerators.with_defaults enums).signatures.get sig = none)
  ∧ ((KeyGenerators.with_defaults enums).key_names = []
      ∧ (KeyGenerators.with_defaults enums).signature_skips = []
      ∧ (KeyGenerators.with_defaults enums).key_name_skips = [])
  ∧ (∀ (key : SchemaKey) (c : Context),
      (KeyGenerators.with_defaults enums).signatures.get key.signature = some c →
      (KeyGenerators.with_defaults enums).get key
        = Except.ok (GetResult.found (KeyGenerator.new key c))) := by
  refine ⟨⟨rfl, rfl, rfl, rfl, rfl, rfl, rfl, rfl⟩, ?_, ⟨rfl, rfl, rfl⟩, ?_⟩
  · intro sig h
    simp only [List.mem_cons, List.not_mem_nil, or_false, not_or] at h
    obtain ⟨h1, h2, h3, h4, h5, h6, h7, h8⟩ := h
    show AList.get
      [(SchemaKeySignature.Typ "as", Context.new_dissimilar "&[&str]" "Vec<String>"),
       (SchemaKeySignature.Typ "(ii)", Context.new "(i32, i32)"),
       (SchemaKeySignature.Typ "d", Context.new "f64"),
       (SchemaKeySignature.Typ "t", Context.new "u64"),
       (SchemaKeySignature.Typ "x", Context.new "i64"),
       (SchemaKeySignature.Typ "u", Context.new "u32"),
       (SchemaKeySignature.Typ "i", Context.new "i32"),
       (SchemaKeySignature.Typ "b", Context.new "bool")] sig = none
    simp [AList.get, Ne.symm h1, Ne.symm h2, Ne.symm h3, Ne.symm h4,
      Ne.symm h5, Ne.symm h6, Ne.symm h7, Ne.symm h8]
  · intro key c hc
    exact get_of_sig_found _ key c (List.not_mem_nil _) (List.not_mem_nil _) rfl hc

/-- Concrete run of C7: the boolean built-in is seeded, an unseeded
signature misses, and a boolean-signature key resolves to the boolean
mapping. -/
theorem C7_with_defaults_builtins_witness :
    (KeyGenerators.with_defaults []).signatures.get (SchemaKeySignature.Typ "b")
      = some (Context.new "bool")
  ∧ (KeyGenerators.with_defaults []).signatures.get (SchemaKeySignature.Typ "q") = none
  ∧ (KeyGenerators.with_defaults []).get keyB
      = Except.ok (GetResult.found (KeyGenerator.new keyB (Context.new "bool"))) :=
  ⟨(C7_with_defaults_builtins []).1.1,
   (C7_with_defaults_builtins []).2.1 (SchemaKeySignature.Typ "q") (by decide),
   (C7_with_defaults_builtins []).2.2.2 keyB (Context.new "bool") (by decide)⟩

theorem reprToVariant_go_get (l : List (String × Int))
    (hnodup : (l.map Prod.snd).Nodup) (i : Fin l.length) :
    SchemaEnum.reprToVariant.go l (l.get i).2 = some i.1 := by
  induction l with
  | nil => exact absurd i.isLt (by simp)
  | cons p rest ih =>
    rcases i with ⟨iv, hlt⟩
    cases iv with
    | zero => simp [SchemaEnum.reprToVariant.go]
    | succ j =>
      have hget : ((p :: rest).get ⟨j + 1, hlt⟩)
          = rest.get ⟨j, Nat.lt_of_succ_lt_succ hlt⟩ := rfl
      have hmem : ((p :: rest).get ⟨j + 1, hlt⟩).2 ∈ rest.map Prod.snd := by
        rw [hget]
        exact List.mem_map_of_mem Prod.snd (rest.get_mem _ _)
      have hne : ¬(p.2 = ((p :: rest).get ⟨j + 1, hlt⟩).2) := by
        intro hq
        exact (List.nodup_cons.mp hnodup).1 (hq ▸ hmem)
      rw [SchemaEnum.reprToVariant.go, if_neg hne, hget,
        ih (List.nodup_cons.mp hnodup).2 ⟨j, Nat.lt_of_succ_lt_succ hlt⟩]
      rfl

/-- C9: for every enum definition whose declared numeric values are
pairwise distinct (the well-formedness the schema collaborator
guarantees), converting any declared variant to its stored numeric
representation and back yields that same variant. -/
theorem C9_enum_roundtrip (e : SchemaEnum)
    (hnodup : (e.variants.map Prod.snd).Nodup) (i : Fin e.variants.length) :
    e.reprToVariant (e.variantToRepr i) = some i.1 :=
  reprToVariant_go_get e.variants hnodup i

/-- Concrete run of C9 on the two-variant `Color` enum: the second
variant round-trips. -/
theorem C9_enum_roundtrip_witness :
    enumColor.reprToVariant (enumColor.variantToRepr ⟨1, by decide⟩) = some 1 :=
  C9_enum_roundtrip enumColor (by decide) ⟨1, by decide⟩

/-- C5 as stated is false: a `Skip` supplied for a signature in one call
followed by a `Define` for the same signature in a later call does not
behave as if only the last `Define` had been supplied — the skip entry
persists and resolution returns `Skip`, while the `Define`-only registry
generates. -/
theorem C5_counterexample :
    kgSkipThenDefine.get keyQ = Except.ok GetResult.skip
  ∧ kgOnlyDefine.get keyQ =
      Except.ok (GetResult.found
        (KeyGenerator.new keyQ (Context.new_dissimilar "MyArg" "MyRet")))
  ∧ kgSkipThenDefine.get keyQ ≠ kgOnlyDefine.get keyQ := by
  refine ⟨rfl, rfl, ?_⟩
  decide

/-- C5 amended: each call merges into the layer's tables, and a later
`Define` for the same signature (respectively, key name) replaces the
earlier `Define`, so resolution of a key not caught by a skip set uses
the last `Define`'s mapping.  (A `Skip`, by contrast, persists — see the
C10 analysis.) -/
theorem C5_last_define_wins (kg : KeyGenerators) (sig : SchemaKeySignature)
    (nm a b a' b' : String) (key : SchemaKey) :
    (((kg.add_signature_overrides [(sig, Override.Define a b)]).add_signature_overrides
        [(sig, Override.Define a' b')]).signatures.get sig
      = some (Context.new_dissimilar a' b'))
  ∧ (((kg.add_key_name_overrides [(nm, Override.Define a b)]).add_key_name_overrides
        [(nm, Override.Define a' b')]).key_names.get nm
      = some (Context.new_dissimilar a' b'))
  ∧ (key.name = nm → key.name ∉ kg.key_name_skips →
      key.signature ∉ kg.signature_skips →
      ((kg.add_key_name_overrides [(nm, Override.Define a b)]).add_key_name_overrides
        [(nm, Override.Define a' b')]).get key
      = Except.ok (GetResult.found (KeyGenerator.new key (Context.new_dissimilar a' b'))))
  ∧ (key.signature = sig → key.name ∉ kg.key_name_skips →
      key.signature ∉ kg.signature_skips →
      kg.key_names.get key.name = none →
      ((kg.add_signature_overrides [(sig, Override.Define a b)]).add_signature_overrides
        [(sig, Override.Define a' b')]).get key
      = Except.ok (GetResult.found (KeyGenerator.new key (Context.new_dissimilar a' b')))) := by
  refine ⟨?_, ?_, ?_, ?_⟩
  · exact AList.get_insert_self _ sig (Context.new_dissimilar a' b')
  · exact AList.get_insert_self _ nm (Context.new_dissimilar a' b')
  · intro hn h1 h2
    exact get_of_key_name_found _ key _ h1 h2
      (by rw [hn]; exact AList.get_insert_self _ nm (Context.new_dissimilar a' b'))
  · intro hs h1 h2 h3
    exact get_of_sig_found _ key _ h1 h2 h3
      (by rw [hs]; exact AList.get_insert_self _ sig (Context.new_dissimilar a' b'))

/-- Concrete run of the amended C5: double `Define` for a signature and
for a key name, lookup and resolution both yielding the last mapping. -/
theorem C5_last_define_wins_witness :
    (((KeyGenerators.with_defaults []).add_signature_overrides
        [(SchemaKeySignature.Typ "q", Override.Define "A1" "R1")]).add_signature_overrides
        [(SchemaKeySignature.Typ "q", Override.Define "A2" "R2")]).signatures.get
        (SchemaKeySignature.Typ "q") = some (Context.new_dissimilar "A2" "R2")
  ∧ (((KeyGenerators.with_defaults []).add_key_name_overrides
        [("special", Override.Define "A1" "R1")]).add_key_name_overrides
        [("special", Override.Define "A2" "R2")]).key_names.get "special"
      = some (Context.new_dissimilar "A2" "R2")
  ∧ (((KeyGenerators.with_defaults []).add_key_name_overrides
        [("special", Override.Define "A1" "R1")]).add_key_name_overrides
        [("special", Override.Define "A2" "R2")]).get keySpecial
      = Except.ok (GetResult.found
          (KeyGenerator.new keySpecial (Context.new_dissimilar "A2" "R2")))
  ∧ (((KeyGenerators.with_defaults []).add_signature_overrides
        [(SchemaKeySignature.Typ "x", Override.Define "A1" "R1")]).add_signature_overrides
        [(SchemaKeySignature.Typ "x", Override.Define "A2" "R2")]).get keyX64
      = Except.ok (GetResult.found
          (KeyGenerator.new keyX64 (Context.new_dissimilar "A2" "R2"))) :=
  ⟨(C5_last_define_wins (KeyGenerators.with_defaults []) (SchemaKeySignature.Typ "q")
      "special" "A1" "R1" "A2" "R2" keySpecial).1,
   (C5_last_define_wins (KeyGenerators.with_defaults []) (SchemaKeySignature.Typ "q")
      "special" "A1" "R1" "A2" "R2" keySpecial).2.1,
   (C5_last_define_wins (KeyGenerators.with_defaults []) (SchemaKeySignature.Typ "q")
      "special" "A1" "R1" "A2" "R2" keySpecial).2.2.1 rfl (by decide) (by decide),
   (C5_last_define_wins (KeyGenerators.with_defaults []) (SchemaKeySignature.Typ "x")
      "special" "A1" "R1" "A2" "R2" keyX64).2.2.2 rfl (by decide) (by decide) (by decide)⟩

theorem nameSkips_addSig (kg : KeyGenerators) (l : List (SchemaKeySignature × Override)) :
    (kg.add_signature_overrides l).key_name_skips = kg.key_name_skips := by
  induction l generalizing kg with
  | nil => rfl
  | cons p rest ih =>
    obtain ⟨sig, ov⟩ := p
    cases ov with
    | Define a b => exact ih _
    | Skip => exact ih _

theorem sigSkips_addName (kg : KeyGenerators) (l : List (String × Override)) :
    (kg.add_key_name_overrides l).signature_skips = kg.signature_skips := by
  induction l generalizing kg with
  | nil => rfl
  | cons p rest ih =>
    obtain ⟨nm, ov⟩ := p
    cases ov with
    | Define a b => exact ih _
    | Skip => exact ih _

theorem mem_sigSkips_addSig (kg : KeyGenerators)
    (l : List (SchemaKeySignature × Override)) (x : SchemaKeySignature)
    (h : x ∈ kg.signature_skips) :
    x ∈ (kg.add_signature_overrides l).signature_skips := by
  induction l generalizing kg with
  | nil => exact h
  | cons p rest ih =>
    obtain ⟨sig, ov⟩ := p
    cases ov with
    | Define a b => exact ih _ h
    | Skip => exact ih _ ((mem_setInsert kg.signature_skips sig x).mpr (Or.inr h))

theorem mem_nameSkips_addName (kg : KeyGenerators)
    (l : List (String × Override)) (x : String)
    (h : x ∈ kg.key_name_skips) :
    x ∈ (kg.add_key_name_overrides l).key_name_skips := by
  induction l generalizing kg with
  | nil => exact h
  | cons p rest ih =>
    obtain ⟨nm, ov⟩ := p
    cases ov with
    | Define a b => exact ih _ h
    | Skip => exact ih _ ((mem_setInsert kg.key_name_skips nm x).mpr (Or.inr h))

theorem mem_nameSkips_applyCalls (kg : KeyGenerators) (calls : List OverrideCall)
    (x : String) (h : x ∈ kg.key_name_skips) :
    x ∈ (kg.applyCalls calls).key_name_skips := by
  induction calls generalizing kg with
  | nil => exact h
  | cons c rest ih =>
    cases c with
    | bySignature l => exact ih _ (by rw [nameSkips_addSig]; exact h)
    | byKeyName l => exact ih _ (mem_nameSkips_addName kg l x h)

theorem mem_sigSkips_applyCalls (kg : KeyGenerators) (calls : List OverrideCall)
    (x : SchemaKeySignature) (h : x ∈ kg.signature_skips) :
    x ∈ (kg.applyCalls calls).signature_skips := by
  induction calls generalizing kg with
  | nil => exact h
  | cons c rest ih =>
    cases c with
    | bySignature l => exact ih _ (mem_sigSkips_addSig kg l x h)
    | byKeyName l => exact ih _ (by rw [sigSkips_addName]; exact h)

/-- C10: once a key name (or a signature) is in a skip set, no later
sequence of calls to `add_key_name_overrides` or
`add_signature_overrides` removes it — the skip entry survives every
later call and `get` still returns `Skip` for any matching key; a later
`Define` for the same key name (or signature) does insert its mapping
into the corresponding table, yet the skip entry persists. -/
theorem C10_skip_persists (kg : KeyGenerators) (calls : List OverrideCall)
    (key : SchemaKey) (sig : SchemaKeySignature) (nm a b : String) :
    (key.name ∈ kg.key_name_skips →
      key.name ∈ (kg.applyCalls calls).key_name_skips ∧
      (kg.applyCalls calls).get key = Except.ok GetResult.skip)
  ∧ (key.signature ∈ kg.signature_skips →
      key.signature ∈ (kg.applyCalls calls).signature_skips ∧
      (kg.applyCalls calls).get key = Except.ok GetResult.skip)
  ∧ (nm ∈ kg.key_name_skips →
      (kg.add_key_name_overrides [(nm, Override.Define a b)]).key_names.get nm
        = some (Context.new_dissimilar a b) ∧
      nm ∈ (kg.add_key_name_overrides [(nm, Override.Define a b)]).key_name_skips)
  ∧ (sig ∈ kg.signature_skips →
      (kg.add_signature_overrides [(sig, Override.Define a b)]).signatures.get sig
        = some (Context.new_dissimilar a b) ∧
      sig ∈ (kg.add_signature_overrides [(sig, Override.Define a b)]).signature_skips) := by
  refine ⟨?_, ?_, ?_, ?_⟩
  · intro h
    have hm := mem_nameSkips_applyCalls kg calls key.name h
    exact ⟨hm, get_of_name_skip _ key hm⟩
  · intro h
    have hm := mem_sigSkips_applyCalls kg calls key.signature h
    exact ⟨hm, get_of_sig_skip _ key hm⟩
  · intro h
    exact ⟨AList.get_insert_self kg.key_names nm (Context.new_dissimilar a b), h⟩
  · intro h
    exact ⟨AList.get_insert_self kg.signatures sig (Context.new_dissimilar a b), h⟩

/-- Concrete run of C10: a registry with `hidden` name-skipped and the
`u` signature skipped receives later `Define` calls for both; the skips
survive and both keys still resolve to `Skip`, while the new mappings sit
in the tables. -/
theorem C10_skip_persists_witness :
    ("hidden" ∈ (kgC10.applyCalls callsC10).key_name_skips
      ∧ (kgC10.applyCalls callsC10).get keyHidden = Except.ok GetResult.skip)
  ∧ (SchemaKeySignature.Typ "u" ∈ (kgC10.applyCalls callsC10).signature_skips
      ∧ (kgC10.applyCalls callsC10).get keyUSkip = Except.ok GetResult.skip)
  ∧ ((kgC10.add_key_name_overrides [("hidden", Override.Define "A" "B")]).key_names.get
        "hidden" = some (Context.new_dissimilar "A" "B")
      ∧ "hidden" ∈ (kgC10.add_key_name_overrides
          [("hidden", Override.Define "A" "B")]).key_name_skips)
  ∧ ((kgC10.add_signature_overrides
        [(SchemaKeySignature.Typ "u", Override.Define "A" "B")]).signatures.get
        (SchemaKeySignature.Typ "u") = some (Context.new_dissimilar "A" "B")
      ∧ SchemaKeySignature.Typ "u" ∈ (kgC10.add_signature_overrides
          [(SchemaKeySignature.Typ "u", Override.Define "A" "B")]).signature_skips) :=
  ⟨(C10_skip_persists kgC10 callsC10 keyHidden (SchemaKeySignature.Typ "u")
      "hidden" "A" "B").1 (by decide),
   (C10_skip_persists kgC10 callsC10 keyUSkip (SchemaKeySignature.Typ "u")
      "hidden" "A" "B").2.1 (by decide),
   (C10_skip_persists kgC10 callsC10 keyHidden (SchemaKeySignature.Typ "u")
      "hidden" "A" "B").2.2.1 (by decide),
   (C10_skip_persists kgC10 callsC10 keyHidden (SchemaKeySignature.Typ "u")
      "hidden" "A" "B").2.2.2 (by decide)⟩

end Gsettings
